import Mathlib

/-!
Verification of the simple-todo-app CRUD core against its specification.

The data model and the four repository operations are embedded shallowly:
the persisted table is a `List Todo`, timestamps are abstract `Nat` clock
values, and JavaScript `undefined` / `null` on optional fields are
`Option` layers (`none` = field omitted, `some none` = explicit null).

Sources embedded:
- `src/server/src/handlers/update_todo.ts` (`updateTodo`, a placeholder
  implementation that fabricates a record and never touches the store);
- `src/unnamed/part_000` (`deleteTodo`);
- `src/server/src/handlers/get_todos.ts` (`getTodos`);
- `createTodo`, whose handler file is absent from the sources, is
  modelled from the spec.
-/

/-- A stored todo record, matching the persisted table layout:
`id` integer, `title` text, `description` nullable text, `completed`
boolean, `created_at` / `updated_at` timestamps (abstract `Nat`). -/
structure Todo where
  id : Nat
  title : String
  description : Option String
  completed : Bool
  created_at : Nat
  updated_at : Nat
deriving DecidableEq, Repr

/-- Input of `updateTodo`: `id` required; `title`, `description`,
`completed` each optional. For `description` the outer `Option` is
presence (`none` = field not sent) and the inner `Option` is
nullability (`some none` = explicit `null`). -/
structure UpdateTodoInput where
  id : Nat
  title : Option String
  description : Option (Option String)
  completed : Option Bool
deriving DecidableEq, Repr

/-- JavaScript `a || d` for an optional string `a`: `undefined` and the
empty string are falsy, so both fall through to the default. -/
def jsOrDefault : Option String → String → String
  | none, d => d
  | some s, d => if s = "" then d else s

/-- Embedding of `updateTodo` from `src/server/src/handlers/update_todo.ts`.
The source is a placeholder: it performs no store access at all and
resolves to a fabricated record
`id: input.id`,
`title: input.title || "Placeholder title"`,
`description: input.description !== undefined ? input.description : null`,
`completed: input.completed || false`,
`created_at: new Date()`, `updated_at: new Date()`.
`now` stands for the clock value of the two `new Date()` calls. -/
def updateTodo (input : UpdateTodoInput) (now : Nat) : Todo :=
  { id := input.id
    title := jsOrDefault input.title "Placeholder title"
    description :=
      match input.description with
      | some d => d
      | none => none
    completed := input.completed.getD false
    created_at := now
    updated_at := now }

/-- Input of `deleteTodo`: the required integer `id`. -/
structure DeleteTodoInput where
  id : Nat
deriving DecidableEq, Repr

/-- The acknowledgment value `\x7b success: boolean \x7d` returned by
`deleteTodo`. -/
structure DeleteResult where
  success : Bool
deriving DecidableEq, Repr

/-- Embedding of `deleteTodo` from `src/unnamed/part_000`.
The SQL `delete ... where id = input.id returning` removes every row
whose `id` matches and yields the removed rows; the handler throws
`Todo with id $\x7binput.id\x7d not found` when that result set is empty and
returns `\x7b success: true \x7d` otherwise. The pair is
(handler outcome, post-operation store). -/
def deleteTodo (input : DeleteTodoInput) (store : List Todo) :
    Except String DeleteResult × List Todo :=
  let result := store.filter (fun t => t.id = input.id)
  let store' := store.filter (fun t => t.id ≠ input.id)
  if result.length = 0 then
    (Except.error ("Todo with id " ++ toString input.id ++ " not found"), store')
  else
    (Except.ok ⟨true⟩, store')

/-- Embedding of `getTodos` from `src/server/src/handlers/get_todos.ts`:
`db.select().from(todosTable)` returns every row of the table, with no
conversion. -/
def getTodos (store : List Todo) : List Todo :=
  store

/-- Input of `createTodo`: required `title`, nullable `description`. -/
structure CreateTodoInput where
  title : String
  description : Option String
deriving DecidableEq, Repr

/-- Modelled from the spec: the handler file for `createTodo` is absent
from the sources (only its tests exist). Per §4.1, create "inserts a new
record with `completed=false`, store-generated `id`, `created_at`/
`updated_at` set to the operation's current time" and "returns the full
stored record"; per §6 the `id` is an auto-incrementing primary key,
modelled by the explicit counter `nextId`. -/
def createTodo (input : CreateTodoInput) (store : List Todo)
    (nextId : Nat) (now : Nat) : Todo × List Todo :=
  let todo : Todo :=
    { id := nextId
      title := input.title
      description := input.description
      completed := false
      created_at := now
      updated_at := now }
  (todo, store ++ [todo])

/-- The record used as pre-update stored state in the counterexamples:
the test fixture `title: 'Original Title', description: 'Original
description', completed: false` of `update_todo.test.ts`. -/
def originalTodo : Todo :=
  { id := 1
    title := "Original Title"
    description := some "Original description"
    completed := false
    created_at := 0
    updated_at := 0 }

/-- Claim C1: the spec requires a partial field merge (omitted fields keep
their pre-update stored value), but `updateTodo` is a placeholder that
never reads the store: an update sending only `title` against a record
whose stored description is "Original description" returns
`description = none`, not the pre-update value. -/
theorem updateTodo_drops_omitted_description :
    (updateTodo ⟨1, some "Updated Title", none, none⟩ 1).description = none ∧
    originalTodo.description = some "Original description" := by
  constructor <;> rfl

/-- Claim C2: the spec requires update on a non-existent id to fail with
NotFound, but `updateTodo` has no failure path at all: its source touches
no store and unconditionally resolves to a fabricated record, here shown
in full for the test's non-existent id 999. -/
theorem updateTodo_fabricates_for_missing_id :
    updateTodo ⟨999, some "Updated Title", none, none⟩ 5 =
      ⟨999, "Updated Title", none, false, 5, 5⟩ := by
  rfl

/-- Claim C3: deleting a non-existent id fails with the not-found error
(determined by the empty affected-row set) and leaves the store
unchanged. -/
theorem deleteTodo_missing_id_not_found (input : DeleteTodoInput)
    (store : List Todo) (h : ∀ t ∈ store, t.id ≠ input.id) :
    (deleteTodo input store).1 =
      Except.error ("Todo with id " ++ toString input.id ++ " not found") ∧
    (deleteTodo input store).2 = store := by
  have h1 : store.filter (fun t => t.id = input.id) = [] := by
    rw [List.filter_eq_nil_iff]
    intro a ha
    simp [h a ha]
  have h2 : store.filter (fun t => t.id ≠ input.id) = store := by
    rw [List.filter_eq_self]
    intro a ha
    simp [h a ha]
  simp only [deleteTodo, h1, h2, List.length_nil, if_pos rfl]
  exact ⟨rfl, rfl⟩

/-- Witness for C3: deleting id 999 from a one-record store with id 1
errors and leaves the record in place. -/
theorem deleteTodo_missing_id_not_found_witness :
    (deleteTodo ⟨999⟩ [originalTodo]).1 =
      Except.error ("Todo with id " ++ toString (999 : Nat) ++ " not found") ∧
    (deleteTodo ⟨999⟩ [originalTodo]).2 = [originalTodo] :=
  deleteTodo_missing_id_not_found ⟨999⟩ [originalTodo] (by decide)

/-- Claim C4: the spec requires explicit-null and omitted `description` to
be distinguishable, with different results whenever the prior stored
description is non-null; the placeholder `updateTodo` returns the very
same record for both inputs (both map to `description = none`), even
though the prior stored description here is non-null. -/
theorem updateTodo_null_vs_omitted_indistinguishable :
    updateTodo ⟨1, none, some none, none⟩ 1 = updateTodo ⟨1, none, none, none⟩ 1 ∧
    originalTodo.description ≠ none := by
  constructor
  · rfl
  · simp [originalTodo]

/-- Claim C5: the spec requires `created_at` to be unchanged by update,
but the placeholder `updateTodo` fabricates it as the operation's current
time: updating at time 5 a record created at time 0 returns
`created_at = 5`. -/
theorem updateTodo_fabricates_created_at :
    (updateTodo ⟨1, none, none, none⟩ 5).created_at = 5 ∧
    originalTodo.created_at = 0 := by
  constructor <;> rfl

/-- Claim C6: for every valid create input (non-empty title), the record
returned by the spec-modelled `createTodo` has `completed = false`, the
store-generated id, the given title and description, and
`created_at = updated_at = now`. -/
theorem createTodo_returns_fresh_record (input : CreateTodoInput)
    (store : List Todo) (nextId now : Nat) (h : input.title ≠ "") :
    (createTodo input store nextId now).1.completed = false ∧
    (createTodo input store nextId now).1.id = nextId ∧
    (createTodo input store nextId now).1.title = input.title ∧
    (createTodo input store nextId now).1.description = input.description ∧
    (createTodo input store nextId now).1.created_at = now ∧
    (createTodo input store nextId now).1.updated_at = now := by
  simp [createTodo]

/-- Witness for C6: creating "Buy milk" with null description at time 0
with next id 1. -/
theorem createTodo_returns_fresh_record_witness :
    (createTodo ⟨"Buy milk", none⟩ [] 1 0).1.completed = false ∧
    (createTodo ⟨"Buy milk", none⟩ [] 1 0).1.id = 1 ∧
    (createTodo ⟨"Buy milk", none⟩ [] 1 0).1.title = "Buy milk" ∧
    (createTodo ⟨"Buy milk", none⟩ [] 1 0).1.description = none ∧
    (createTodo ⟨"Buy milk", none⟩ [] 1 0).1.created_at = 0 ∧
    (createTodo ⟨"Buy milk", none⟩ [] 1 0).1.updated_at = 0 :=
  createTodo_returns_fresh_record ⟨"Buy milk", none⟩ [] 1 0 (by decide)

/-- Claim C7: `getTodos` returns exactly the records currently in the
store (every record appears, nothing else), and on an empty store it
returns the empty sequence. -/
theorem getTodos_returns_exactly_store (store : List Todo) :
    (∀ t, t ∈ getTodos store ↔ t ∈ store) ∧
    getTodos ([] : List Todo) = [] := by
  simp [getTodos]

/-- Claim C8: deleting an existing id succeeds, removes every record with
that id and nothing else: a subsequent `getTodos` never includes the
deleted id, every other record survives, and nothing new appears. -/
theorem deleteTodo_removes_exactly_target (input : DeleteTodoInput)
    (store : List Todo) (h : ∃ t ∈ store, t.id = input.id) :
    (deleteTodo input store).1 = Except.ok ⟨true⟩ ∧
    (∀ t ∈ getTodos (deleteTodo input store).2, t.id ≠ input.id) ∧
    (∀ t ∈ store, t.id ≠ input.id → t ∈ (deleteTodo input store).2) ∧
    (∀ t ∈ (deleteTodo input store).2, t ∈ store) := by
  obtain ⟨t0, ht0, hid⟩ := h
  have hmem : t0 ∈ store.filter (fun t => t.id = input.id) :=
    List.mem_filter.mpr ⟨ht0, by simp [hid]⟩
  have hne : (store.filter (fun t => t.id = input.id)).length ≠ 0 := by
    intro hlen
    rw [List.length_eq_zero] at hlen
    exact List.not_mem_nil t0 (hlen ▸ hmem)
  refine ⟨?_, ?_, ?_, ?_⟩
  · simp [deleteTodo, hne]
  · intro t ht
    simp only [deleteTodo, hne, if_neg, getTodos] at ht
    have := (List.mem_filter.mp ht).2
    simpa using this
  · intro t ht htne
    simp only [deleteTodo, hne, if_neg]
    exact List.mem_filter.mpr ⟨ht, by simpa using htne⟩
  · intro t ht
    simp only [deleteTodo, hne, if_neg] at ht
    exact (List.mem_filter.mp ht).1

/-- Witness for C8: deleting id 1 from a two-record store removes the
record with id 1 and keeps the other record. -/
theorem deleteTodo_removes_exactly_target_witness :
    (deleteTodo ⟨1⟩ [originalTodo, ⟨2, "Other", none, true, 0, 0⟩]).1 =
      Except.ok ⟨true⟩ ∧
    (∀ t ∈ getTodos (deleteTodo ⟨1⟩
        [originalTodo, ⟨2, "Other", none, true, 0, 0⟩]).2, t.id ≠ 1) ∧
    (∀ t ∈ [originalTodo, ⟨2, "Other", none, true, 0, 0⟩], t.id ≠ 1 →
      t ∈ (deleteTodo ⟨1⟩ [originalTodo, ⟨2, "Other", none, true, 0, 0⟩]).2) ∧
    (∀ t ∈ (deleteTodo ⟨1⟩ [originalTodo, ⟨2, "Other", none, true, 0, 0⟩]).2,
      t ∈ [originalTodo, ⟨2, "Other", none, true, 0, 0⟩]) :=
  deleteTodo_removes_exactly_target ⟨1⟩
    [originalTodo, ⟨2, "Other", none, true, 0, 0⟩]
    ⟨originalTodo, List.mem_cons_self _ _, rfl⟩

/-- Claim C9: whenever `deleteTodo` returns normally its result is exactly
success = true; the only other outcome is the raised not-found error, so a
false success value is never returned. -/
theorem deleteTodo_never_returns_false (input : DeleteTodoInput)
    (store : List Todo) :
    (deleteTodo input store).1 = Except.ok ⟨true⟩ ∨
    (deleteTodo input store).1 =
      Except.error ("Todo with id " ++ toString input.id ++ " not found") := by
  by_cases h : (store.filter (fun t => t.id = input.id)).length = 0
  · right
    simp [deleteTodo, h]
  · left
    simp [deleteTodo, h]

/-- Claim C10: the record returned by `updateTodo` always carries the id
given in the input. -/
theorem updateTodo_returns_input_id (input : UpdateTodoInput) (now : Nat) :
    (updateTodo input now).id = input.id := rfl
